import Mathlib

/-!
# Verification of the bbconf multi-store orchestration layer

Shallow embedding of the bed-record orchestration code of the `bbconf`
repository (`bbconf/modules/bedfiles.py`, `bbconf/config_parser/bedbaseconfig.py`)
and proofs about it.  Python exceptions are modelled by an explicit error
type, fallible code returns `Except`, and stateful code threads an explicit
`State` value.
-/

namespace BBConf

/-- The kinds of Python exception that the embedded code can raise. -/
inductive PyError where
  /-- `AttributeError`, e.g. dereferencing an attribute of `None`. -/
  | attributeError
  /-- A dedicated record-not-found exception (`RecordNotFoundError`). -/
  | recordNotFound
  /-- `TypeError`, e.g. `f(**None)` dict expansion of `None`. -/
  | typeError
  /-- `IndexError` from string indexing out of range. -/
  | indexError
  /-- pydantic `ValidationError` on a malformed section. -/
  | validationError
  /-- A YAML parse error raised by the config reader. -/
  | yamlError
  /-- Relational integrity violation (duplicate primary key). -/
  | integrityError
  /-- `BedbaseS3ConnectionError` raised when no object-store client exists. -/
  | s3ConnectionError
  /-- `BedBaseConfError`, the package's generic error. -/
  | bedBaseConfError
  /-- An upload failure from the object-store client (missing local file). -/
  | uploadError
  /-- A backing-store client constructor raised. -/
  | storeInitError
  /-- `NameError` from evaluating an undefined module-level name. -/
  | nameError
  /-- The intended `ConfigError` of the specification. -/
  | configError
  deriving Repr, DecidableEq

/-- First character of a string, if any. -/
def strHead? (s : String) : Option Char :=
  s.data.head?

/-- Last character of a string, if any. -/
def strLast? (s : String) : Option Char :=
  s.data.getLast?

/-- Number of characters of a string. -/
def strLen (s : String) : Nat :=
  s.data.length

/-- `os.path.basename`: the characters after the final `/` (empty when the
path ends in a slash). -/
def basename (p : String) : String :=
  String.mk ((p.data.reverse.takeWhile (· ≠ '/')).reverse)

/-- `os.path.join` on two components: an absolute second component replaces
the first; otherwise the parts are joined with a single separator unless the
first part is empty or already ends in one. -/
def osPathJoin2 (a b : String) : String :=
  if strHead? b = some '/' then b
  else if a = "" ∨ strLast? a = some '/' then a ++ b
  else a ++ "/" ++ b

/-- Python string indexing `s[i]` for a non-negative index: the one-character
string at position `i`, or `IndexError` when out of range. -/
def pyIndexStr (s : String) (i : Nat) : Except PyError String :=
  if i < strLen s then .ok (String.mk ((s.data.drop i).take 1)) else .error .indexError

/-- `BED_PATH_FOLDER` from `bbconf/modules/bedfiles.py`. -/
def BED_PATH_FOLDER : String := "bed_files"

/-- `BIGBED_PATH_FOLDER` from `bbconf/modules/bedfiles.py`. -/
def BIGBED_PATH_FOLDER : String := "bigbed_files"

/-- `PLOTS_PATH_FOLDER` from `bbconf/modules/bedfiles.py`. -/
def PLOTS_PATH_FOLDER : String := "stats"

/-- Modelled from the spec: `bbconf/config_parser/const.py` is not under
`src/`; the spec's key convention and scenario (`bed_files/a/b/x.bed` for
category files) fix `S3_FILE_PATH_FOLDER` to `"bed_files"`. -/
def S3_FILE_PATH_FOLDER : String := "bed_files"

/-- The remote key derived by `BedAgentBedFile.upload_files_s3`
(`bedfiles.py` lines 343-352): `file_base_name` is the basename of the local
path and the shard prefix is its first two characters,
`os.path.join(folder, file_base_name[0], file_base_name[1], basename(path))`. -/
def agentS3Key (folder : String) (path : String) : Except PyError String := do
  let base := basename path
  let c0 ← pyIndexStr base 0
  let c1 ← pyIndexStr base 1
  .ok (osPathJoin2 (osPathJoin2 (osPathJoin2 folder c0) c1) (basename path))

/-- The remote key derived by `BedBaseConfig.upload_files_s3`
(`bedbaseconfig.py` lines 277-284): the shard prefix is the first two
characters of the identifier,
`os.path.join(folder, identifier[0], identifier[1], basename(path))`. -/
def configS3Key (folder : String) (identifier : String) (path : String) :
    Except PyError String := do
  let c0 ← pyIndexStr identifier 0
  let c1 ← pyIndexStr identifier 1
  .ok (osPathJoin2 (osPathJoin2 (osPathJoin2 folder c0) c1) (basename path))

instance {ε α : Type} [DecidableEq ε] [DecidableEq α] : DecidableEq (Except ε α) := fun a b =>
  match a, b with
  | .ok x, .ok y => if h : x = y then .isTrue (by rw [h]) else .isFalse (by simp [h])
  | .error x, .error y => if h : x = y then .isTrue (by rw [h]) else .isFalse (by simp [h])
  | .ok _, .error _ => .isFalse (by simp)
  | .error _, .ok _ => .isFalse (by simp)

/-- The pydantic `FileModel` of `bbconf/models/base_models.py`: a file
descriptor with role name, path, optional thumbnail path, description and
byte size. -/
structure FileModel where
  name : String
  path : String
  path_thumbnail : Option String := none
  description : Option String := none
  size : Option Nat := none
  deriving Repr, DecidableEq

/-- The `BedFiles` pydantic model: the two primary-file fields `bed_file`
and `bigbed_file`, as used throughout `bedfiles.py` (`files.bed_file`,
`files.bigbed_file`) and named in the spec's data model. -/
structure BedFiles where
  bed_file : Option FileModel := none
  bigbed_file : Option FileModel := none
  deriving Repr, DecidableEq

/-- `BedFiles.model_fields`. -/
def bedFilesFields : List String := ["bed_file", "bigbed_file"]

/-- Pydantic iteration `for k, v in files` over a `BedFiles` value, in field
order. -/
def BedFiles.items (f : BedFiles) : List (String × Option FileModel) :=
  [("bed_file", f.bed_file), ("bigbed_file", f.bigbed_file)]

/-- `setattr` on a `BedFiles` value by field name; an unknown name leaves the
model unchanged (the callers guard with `name in BedFiles.model_fields`). -/
def BedFiles.setField (f : BedFiles) (n : String) (v : FileModel) : BedFiles :=
  if n = "bed_file" then { f with bed_file := some v }
  else if n = "bigbed_file" then { f with bigbed_file := some v }
  else f

/-- Modelled from the spec: `bbconf/models/bed_models.py` (the `BedPlots`
model) is not under `src/`; per the spec's data model, plots are named
visualization descriptors whose field names are plot names, disjoint from
the files fields. A representative field set. -/
def bedPlotsFields : List String :=
  ["chrombins", "gccontent", "tssdist", "partitions"]

/-- The `BedPlots` pydantic model, as an association list over its field
names; a fresh `BedPlots()` has every field unset. -/
structure BedPlots where
  entries : List (String × Option FileModel) := bedPlotsFields.map (fun n => (n, none))
  deriving Repr, DecidableEq

/-- `setattr` on a `BedPlots` value by field name. -/
def BedPlots.setField (p : BedPlots) (n : String) (v : FileModel) : BedPlots :=
  ⟨p.entries.map (fun e => if e.1 = n then (n, some v) else e)⟩

/-- Typed statistics payload (the coerced `BedStats`), kept abstract as a
keyed numeric record: no claim inspects individual statistic fields. -/
abbrev StatsD := List (String × Int)

/-- Typed classification payload (the coerced `BedClassification`). -/
abbrev ClassD := List (String × String)

/-- Metadata document payload (the coerced `BedPEPHub` / pephub sample). -/
abbrev MetaD := List (String × String)

/-- A parsed region set (the `geniml.io.RegionSet` collaborator): a list of
genomic intervals. -/
abbrev RegionSetD := List (String × Nat × Nat)

/-- A row of the relational `Bed` table.  `add` constructs
`Bed(id=identifier, **stats, **classification)`, so `name`/`description`
keep their column defaults. -/
structure BedRow where
  id : String
  name : Option String := none
  description : Option String := none
  stats : StatsD := []
  classification : ClassD := []
  deriving Repr, DecidableEq

/-- A row of the relational `Files` table. -/
structure FilesRow where
  name : String
  path : String
  path_thumbnail : Option String := none
  description : Option String := none
  size : Option Nat := none
  ftype : String
  bedfile_id : String
  deriving Repr, DecidableEq

/-- The observable state of the four backing stores: relational rows, the
object store (remote key to stored byte count), the vector index
(identifier to upserted vector) and the external metadata service. -/
structure State where
  beds : List BedRow := []
  fileRows : List FilesRow := []
  s3 : List (String × Nat) := []
  qdrant : List (String × List ℚ) := []
  pephub : List (String × MetaD) := []
  deriving Repr, DecidableEq

/-- The `BedMetadata` aggregated read-model returned by
`BedAgentBedFile.get`. -/
structure BedMetadata where
  id : String
  name : Option String
  description : Option String
  stats : StatsD
  classification : ClassD
  plots : BedPlots
  files : BedFiles
  raw_metadata : MetaD
  deriving Repr, DecidableEq

/-- The file-row partitioning loop of `BedAgentBedFile.get` (`bedfiles.py`
lines 72-91): a row whose name is a `BedPlots` field becomes a plot
descriptor (with thumbnail), a row whose name is a `BedFiles` field becomes
a file descriptor (without thumbnail), and any other row is logged and
dropped. -/
def partitionRows (rows : List FilesRow) : BedPlots × BedFiles :=
  rows.foldl
    (fun acc r =>
      if r.name ∈ bedPlotsFields then
        (acc.1.setField r.name ⟨r.name, r.path, r.path_thumbnail, r.description, r.size⟩, acc.2)
      else if r.name ∈ bedFilesFields then
        (acc.1, acc.2.setField r.name ⟨r.name, r.path, none, r.description, r.size⟩)
      else acc)
    (⟨bedPlotsFields.map (fun n => (n, none))⟩, ⟨none, none⟩)

/-- `BedAgentBedFile.get` (`bedfiles.py` lines 57-118).  `session.scalar`
yields `None` when no `Bed` row matches, and the subsequent
`bed_object.files` dereference raises `AttributeError`; the external
metadata fetch is best-effort (any failure or absence becomes an empty
document). -/
def get (st : State) (identifier : String) : Except PyError BedMetadata :=
  match st.beds.find? (fun b => b.id = identifier) with
  | none => .error .attributeError
  | some bed =>
    let pf := partitionRows (st.fileRows.filter (fun r => r.bedfile_id = identifier))
    .ok { id := bed.id
          name := bed.name
          description := bed.description
          stats := bed.stats
          classification := bed.classification
          plots := pf.1
          files := pf.2
          raw_metadata := (st.pephub.lookup identifier).getD [] }

/-- `BedAgentBedFile.delete` (`bedfiles.py` lines 326-333): the method body
is the single `...` (Ellipsis) expression, i.e. no operation is performed on
any store. -/
def delete (st : State) (_identifier : String) : State :=
  st

/-- `BedAgentBedFile._upload_s3` (`bedfiles.py` lines 423-433):
`self._config.boto3_client.upload_file(...)`.  When no object-store client
was constructed the attribute access on `None` raises `AttributeError`; a
missing local file makes `upload_file` raise; on success the remote object
holds the local file's bytes. -/
def uploadS3Agent (boto3 : Bool) (fs : String → Option Nat) (st : State)
    (localPath s3Path : String) : Except (State × PyError) State :=
  if boto3 then
    match fs localPath with
    | none => .error (st, .uploadError)
    | some sz => .ok { st with s3 := (s3Path, sz) :: st.s3 }
  else .error (st, .attributeError)

/-- `BedAgentBedFile.upload_files_s3` (`bedfiles.py` lines 335-371): for
each of `bed_file` and `bigbed_file` that is set, derive the remote key from
the first two characters of the file's basename, upload, and rewrite the
descriptor's `path` to the remote key.  The descriptor's `size` is never
written. -/
def uploadFilesS3Agent (boto3 : Bool) (fs : String → Option Nat) (st : State)
    (files : BedFiles) : Except (State × PyError) (State × BedFiles) :=
  let r1 : Except (State × PyError) (State × BedFiles) :=
    match files.bed_file with
    | none => .ok (st, files)
    | some bf =>
      match agentS3Key BED_PATH_FOLDER bf.path with
      | .error e => .error (st, e)
      | .ok key =>
        match uploadS3Agent boto3 fs st bf.path key with
        | .error se => .error se
        | .ok st' => .ok (st', { files with bed_file := some { bf with path := key } })
  match r1 with
  | .error se => .error se
  | .ok (st1, files1) =>
    match files1.bigbed_file with
    | none => .ok (st1, files1)
    | some bb =>
      match agentS3Key BIGBED_PATH_FOLDER bb.path with
      | .error e => .error (st1, e)
      | .ok key =>
        match uploadS3Agent boto3 fs st1 bb.path key with
        | .error se => .error se
        | .ok st' => .ok (st', { files1 with bigbed_file := some { bb with path := key } })

/-- `BedAgentBedFile.upload_plots_s3` (`bedfiles.py` lines 373-421): a fresh
`BedPlots` is populated from the set entries; keys are
`stats/<identifier>/<basename>`; an unset `output_path` (`None`) makes
`os.path.join(None, ...)` raise `TypeError`; a plot descriptor whose remote
key would be `None` cannot construct a `FileModel` (path is required). -/
def uploadPlotsS3Agent (boto3 : Bool) (fs : String → Option Nat) (st : State)
    (identifier : String) (output_path : Option String) (plots : BedPlots) :
    Except (State × PyError) (State × BedPlots) :=
  let outputFolder := osPathJoin2 PLOTS_PATH_FOLDER identifier
  plots.entries.foldl
    (fun acc kv =>
      match acc with
      | .error se => .error se
      | .ok (stAcc, out) =>
        match kv.2 with
        | none => .ok (stAcc, out)
        | some v =>
          let prim : Except (State × PyError) (State × Option String) :=
            if v.path ≠ "" then
              let fileS3Path := osPathJoin2 outputFolder (basename v.path)
              match output_path with
              | none => .error (stAcc, .typeError)
              | some op =>
                match uploadS3Agent boto3 fs stAcc (osPathJoin2 op v.path) fileS3Path with
                | .error se => .error se
                | .ok st' => .ok (st', some fileS3Path)
            else .ok (stAcc, none)
          match prim with
          | .error se => .error se
          | .ok (st1, key?) =>
            let thumb : Except (State × PyError) (State × Option String) :=
              match v.path_thumbnail with
              | some tp =>
                if tp ≠ "" then
                  let thumbS3Path := osPathJoin2 outputFolder (basename tp)
                  match output_path with
                  | none => .error (st1, .typeError)
                  | some op =>
                    match uploadS3Agent boto3 fs st1 (osPathJoin2 op tp) thumbS3Path with
                    | .error se => .error se
                    | .ok st' => .ok (st', some thumbS3Path)
                else .ok (st1, none)
              | none => .ok (st1, none)
            match thumb with
            | .error se => .error se
            | .ok (st2, tkey?) =>
              match key? with
              | none => .error (st2, .validationError)
              | some key =>
                .ok (st2, out.setField kv.1 ⟨v.name, key, tkey?, v.description, none⟩))
    (.ok (st, (⟨bedPlotsFields.map (fun n => (n, none))⟩ : BedPlots)))

/-- Column-wise `np.add` reduction over the rows of a matrix, as performed
by `np.mean(..., axis=0)`: the rows are combined pairwise in order. -/
def npColSum (rows : List (List ℚ)) : List ℚ :=
  match rows with
  | [] => []
  | r :: rs => rs.foldl (fun acc row => List.zipWith (· + ·) acc row) r

/-- `np.mean(matrix, axis=0)` (`bedfiles.py` line 478): the column-wise sum
divided by the number of rows. -/
def npMeanAxis0 (rows : List (List ℚ)) : List ℚ :=
  (npColSum rows).map (fun x => x / (rows.length : ℚ))

/-- The argument of `BedAgentBedFile.upload_qdrant`: a file path, an
already-parsed region set, or anything else (rejected). -/
inductive BedInput where
  | path (p : String)
  | regionSet (rs : RegionSetD)
  | invalid
  deriving Repr, DecidableEq

/-- `BedAgentBedFile.upload_qdrant` (`bedfiles.py` lines 448-487): dispatch
on the input's type (`BedBaseConfError` otherwise), encode the region set
with the region-to-vector model into a per-region matrix, take the
column-wise mean, and upsert `(bed_id, vector)` into the vector index. -/
def uploadQdrant (parse : String → RegionSetD) (encode : RegionSetD → List (List ℚ))
    (st : State) (bed_id : String) (bed_file : BedInput) : Except PyError State :=
  match bed_file with
  | .path p =>
    .ok { st with qdrant := (bed_id, npMeanAxis0 (encode (parse p))) :: st.qdrant }
  | .regionSet rs =>
    .ok { st with qdrant := (bed_id, npMeanAxis0 (encode rs)) :: st.qdrant }
  | .invalid => .error .bedBaseConfError

/-- `BedAgentBedFile.add` (`bedfiles.py` lines 231-324).  In source order:
(1) coerce `stats`, `plots`, `files`, `metadata`, `classification` into
their pydantic forms — expanding a `None` argument with `**` raises
`TypeError` before any store is touched; (2) if `upload_pephub`, create the
external metadata document; (3) if `add_to_qdrant`, upsert the embedding of
`files.bed_file.path` (an unset `bed_file` makes the `.path` attribute
access on `None` raise); (4) if `upload_s3`, sync files then plots through
the batch uploaders, rebinding the descriptors; (5) insert the `Bed` row
and, only when `upload_s3`, one `Files` row per set descriptor, then commit
(a duplicate identifier violates the primary key at commit).  The returned
state keeps every effect completed before a failing step. -/
def add (st : State) (identifier : String) (stats : StatsD)
    (metadata : Option MetaD) (plots : Option BedPlots) (files : Option BedFiles)
    (classification : Option ClassD)
    (add_to_qdrant upload_pephub upload_s3 : Bool)
    (local_path : Option String) (_overwrite : Bool)
    (parse : String → RegionSetD) (encode : RegionSetD → List (List ℚ))
    (boto3 : Bool) (fs : String → Option Nat) : State × Option PyError :=
  match plots, files, metadata, classification with
  | none, _, _, _ => (st, some .typeError)
  | _, none, _, _ => (st, some .typeError)
  | _, _, none, _ => (st, some .typeError)
  | _, _, _, none => (st, some .typeError)
  | some plotsV, some filesV, some metaV, some classV =>
    let st1 :=
      if upload_pephub then { st with pephub := (identifier, metaV) :: st.pephub } else st
    let step3 : Except PyError State :=
      if add_to_qdrant then
        match filesV.bed_file with
        | none => .error .attributeError
        | some bf => uploadQdrant parse encode st1 identifier (.path bf.path)
      else .ok st1
    match step3 with
    | .error e => (st1, some e)
    | .ok st2 =>
      let step4 : Except (State × PyError) (State × BedFiles × BedPlots) :=
        if upload_s3 then
          match uploadFilesS3Agent boto3 fs st2 filesV with
          | .error se => .error se
          | .ok (st3, filesU) =>
            match uploadPlotsS3Agent boto3 fs st3 identifier local_path plotsV with
            | .error se => .error se
            | .ok (st4, plotsU) => .ok (st4, filesU, plotsU)
        else .ok (st2, filesV, plotsV)
      match step4 with
      | .error (stE, e) => (stE, some e)
      | .ok (st4, filesU, plotsU) =>
        if st4.beds.any (fun b => b.id = identifier) then (st4, some .integrityError)
        else
          let bedRow : BedRow := { id := identifier, stats := stats, classification := classV }
          let newFileRows : List FilesRow :=
            if upload_s3 then
              (filesU.items.filterMap (fun kv => kv.2.map (fun v =>
                ({ name := kv.1, path := v.path, description := v.description,
                   size := v.size, ftype := "file", bedfile_id := identifier } : FilesRow))))
              ++ (plotsU.entries.filterMap (fun kv => kv.2.map (fun v =>
                ({ name := kv.1, path := v.path, path_thumbnail := v.path_thumbnail,
                   description := v.description, ftype := "plot",
                   bedfile_id := identifier } : FilesRow))))
            else []
          ({ st4 with beds := st4.beds ++ [bedRow],
                      fileRows := st4.fileRows ++ newFileRows }, none)

/-- Failure mode of a backing-store client constructor: qdrant's
`ResponseHandlingException` (an unreachable endpoint) or any other raised
exception. -/
inductive StoreFailure where
  | responseHandling
  | other
  deriving Repr, DecidableEq

/-- Outcome of one client constructor call. -/
inductive InitOutcome where
  | succ
  | fail (f : StoreFailure)
  deriving Repr, DecidableEq

/-- Constructor outcomes for the six long-lived clients, in the order
`BedBaseConfig.__init__` builds them. -/
structure InitOutcomes where
  db : InitOutcome
  qdrant : InitOutcome
  t2bsi : InitOutcome
  r2v : InitOutcome
  phc : InitOutcome
  boto3 : InitOutcome
  deriving Repr, DecidableEq

/-- The constructed configuration context: a `none` handle is the
"unavailable" marker returned by a caught constructor failure. -/
structure Context where
  qdrantH : Option Unit
  t2bsiH : Option Unit
  phcH : Option Unit
  boto3H : Option Unit
  deriving Repr, DecidableEq

/-- `BedBaseConfig.__init__` and its per-client init methods
(`bedbaseconfig.py` lines 38-49 and 137-225): the database engine
construction is unguarded; `_init_qdrant_backend` catches only
`ResponseHandlingException` (warns; the handle is implicitly `None`);
`_init_t2bsi_object`, `_init_pephubclient` and `_init_boto3_client` catch
every exception and return `None` with a warning; `_init_r2v_object` is
unguarded, so its failure propagates out of `__init__`. -/
def bedBaseConfigInit (o : InitOutcomes) : Except PyError Context :=
  match o.db with
  | .fail _ => .error .storeInitError
  | .succ =>
    let qdrantStep : Except PyError (Option Unit) :=
      match o.qdrant with
      | .succ => .ok (some ())
      | .fail .responseHandling => .ok none
      | .fail .other => .error .storeInitError
    match qdrantStep with
    | .error e => .error e
    | .ok qh =>
      let th : Option Unit := match o.t2bsi with | .succ => some () | .fail _ => none
      match o.r2v with
      | .fail _ => .error .storeInitError
      | .succ =>
        let ph : Option Unit := match o.phc with | .succ => some () | .fail _ => none
        let bh : Option Unit := match o.boto3 with | .succ => some () | .fail _ => none
        .ok ⟨qh, th, ph, bh⟩

/-- Modelled from the spec: `bbconf/config_parser/models.py` (`ConfigFile`)
is not under `src/`; per the spec's configuration surface (§6), the config
has sections for the relational database, the vector index, the server, the
model paths, the object store and the external metadata service. -/
inductive SectionName where
  | database
  | qdrant
  | server
  | path
  | s3
  | phc
  deriving Repr, DecidableEq

/-- `ConfigFile.model_fields`, the iteration order of the coercion loop. -/
def configFields : List SectionName :=
  [.database, .qdrant, .server, .path, .s3, .phc]

/-- What the parsed YAML mapping holds for one section name: nothing
(`.get` returns `None`), a non-mapping value (not `**`-expandable), or a
mapping which pydantic accepts iff it is well shaped. -/
inductive RawSection where
  | absent
  | nonMapping
  | mapping (wellShaped : Bool)
  deriving Repr, DecidableEq

/-- The value recorded for one section after coercion: the
default-constructed section model, or one built from the raw mapping. -/
inductive SectionVal where
  | defaulted
  | fromRaw
  deriving Repr, DecidableEq

/-- The per-section body of the loop in `_read_config_file`
(`bedbaseconfig.py` lines 63-70): `annotation(**raw.get(field))`, with
`except TypeError` falling back to the default-constructed `annotation()`;
a pydantic validation failure is not a `TypeError` and propagates. -/
def coerceSection : RawSection → Except PyError SectionVal
  | .absent => .ok .defaulted
  | .nonMapping => .ok .defaulted
  | .mapping true => .ok .fromRaw
  | .mapping false => .error .validationError

/-- `BedBaseConfig._read_config_file` (`bedbaseconfig.py` lines 51-72):
parse the YAML source (a parse failure propagates as the parser's own
error), then coerce every section of `ConfigFile.model_fields` in order. -/
def readConfigFile (source : Except Unit (SectionName → RawSection)) :
    Except PyError (List (SectionName × SectionVal)) :=
  match source with
  | .error _ => .error .yamlError
  | .ok raw =>
    configFields.foldlM
      (fun acc f =>
        match coerceSection (raw f) with
        | .error e => .error e
        | .ok v => .ok (acc ++ [(f, v)]))
      []

/-- One neighbor returned by the vector index's text search, as mutated in
place by the result loop: its identifier and, once resolved, the record's
full view under the `"metadata"` key. -/
structure SearchHit where
  id : String
  metadata : Option BedMetadata := none
  deriving Repr, DecidableEq

/-- The result loop of `BedAgentBedFile.text_to_bed_search` (`bedfiles.py`
lines 489-512).  The loop body resolves each hit through the module-level
name `bbc.bed.retrieve_one`, but neither `bbc` nor the
`RecordNotFoundError` named in the except clause is defined or imported in
the module: evaluating the callable raises `NameError` on the first
result, before the hyphen normalization of the identifier is even
evaluated, and the except clause (whose own name lookup would also fail)
cannot catch it.  An empty result list never enters the loop and is
returned unchanged. -/
def textToBedSearch : List SearchHit → Except PyError (List SearchHit)
  | [] => .ok []
  | _ :: _ => .error .nameError

/-- `BedBaseConfig.delete_files_s3` (`bedbaseconfig.py` lines 322-333), over
a deletion action `del1` standing for `delete_s3`: delete each descriptor's
path and then, when a non-empty thumbnail path is present, the thumbnail; an
exception is not caught, so it stops the loop.  Returns the keys passed to
`delete_s3`, in call order, with the escaped error if any. -/
def deleteFilesS3 (del1 : String → Except PyError Unit) :
    List FileModel → List String × Option PyError
  | [] => ([], none)
  | f :: rest =>
    match del1 f.path with
    | .error e => ([f.path], some e)
    | .ok _ =>
      match f.path_thumbnail with
      | some t =>
        if t ≠ "" then
          match del1 t with
          | .error e => ([f.path, t], some e)
          | .ok _ =>
            let r := deleteFilesS3 del1 rest
            (f.path :: t :: r.1, r.2)
        else
          let r := deleteFilesS3 del1 rest
          (f.path :: r.1, r.2)
      | none =>
        let r := deleteFilesS3 del1 rest
        (f.path :: r.1, r.2)

/-- The thumbnail keys `delete_files_s3` would pass to `delete_s3` for one
descriptor: the thumbnail path when present and non-empty (Python
truthiness), nothing otherwise. -/
def thumbKeys (f : FileModel) : List String :=
  match f.path_thumbnail with
  | some t => if t ≠ "" then [t] else []
  | none => []

/-- Every remote key `delete_files_s3` would pass to `delete_s3` for a
descriptor list were no deletion to fail: each descriptor's path followed by
its present thumbnail, in list order. -/
def plannedDeleteKeys (files : List FileModel) : List String :=
  files.flatMap (fun f => f.path :: thumbKeys f)

lemma getD_zipWith_add (a b : List ℚ) (j : Nat) (hja : j < a.length) (hjb : j < b.length) :
    (List.zipWith (· + ·) a b).getD j 0 = a.getD j 0 + b.getD j 0 := by
  induction a generalizing b j with
  | nil => simp at hja
  | cons x xs ih =>
    cases b with
    | nil => simp at hjb
    | cons y ys =>
      cases j with
      | zero => simp
      | succ n => simpa using ih ys n (by simpa using hja) (by simpa using hjb)

lemma foldl_zipWith_length (rows : List (List ℚ)) (acc : List ℚ) (d : Nat)
    (ha : acc.length = d) (hr : ∀ r ∈ rows, r.length = d) :
    (rows.foldl (fun a row => List.zipWith (· + ·) a row) acc).length = d := by
  induction rows generalizing acc with
  | nil => simpa using ha
  | cons r rs ih =>
    have hrl : r.length = d := hr r (by simp)
    have hlen : (List.zipWith (· + ·) acc r).length = d := by
      simp [List.length_zipWith, ha, hrl]
    simpa using ih (List.zipWith (· + ·) acc r) hlen (fun r' hr' => hr r' (by simp [hr']))

lemma foldl_zipWith_getD (rows : List (List ℚ)) (acc : List ℚ) (d j : Nat)
    (ha : acc.length = d) (hr : ∀ r ∈ rows, r.length = d) (hj : j < d) :
    (rows.foldl (fun a row => List.zipWith (· + ·) a row) acc).getD j 0 =
      acc.getD j 0 + (rows.map (fun r => r.getD j 0)).sum := by
  induction rows generalizing acc with
  | nil => simp
  | cons r rs ih =>
    have hrl : r.length = d := hr r (by simp)
    have hlen : (List.zipWith (· + ·) acc r).length = d := by
      simp [List.length_zipWith, ha, hrl]
    have step := ih (List.zipWith (· + ·) acc r) hlen (fun r' hr' => hr r' (by simp [hr']))
    have hz := getD_zipWith_add acc r j (ha ▸ hj) (hrl ▸ hj)
    simp only [List.foldl_cons]
    rw [step, hz, List.map_cons, List.sum_cons]
    ring

lemma npColSum_getD (rows : List (List ℚ)) (d j : Nat) (h0 : rows ≠ [])
    (hr : ∀ r ∈ rows, r.length = d) (hj : j < d) :
    (npColSum rows).getD j 0 = (rows.map (fun r => r.getD j 0)).sum := by
  cases rows with
  | nil => exact absurd rfl h0
  | cons r rs =>
    unfold npColSum
    rw [foldl_zipWith_getD rs r d j (hr r (by simp)) (fun r' hr' => hr r' (by simp [hr'])) hj]
    simp

lemma npColSum_length (rows : List (List ℚ)) (d : Nat) (h0 : rows ≠ [])
    (hr : ∀ r ∈ rows, r.length = d) :
    (npColSum rows).length = d := by
  cases rows with
  | nil => exact absurd rfl h0
  | cons r rs =>
    unfold npColSum
    exact foldl_zipWith_length rs r d (hr r (by simp)) (fun r' hr' => hr r' (by simp [hr']))

lemma getD_map_div (l : List ℚ) (n : ℚ) (j : Nat) (hj : j < l.length) :
    (l.map (fun x => x / n)).getD j 0 = l.getD j 0 / n := by
  induction l generalizing j with
  | nil => simp at hj
  | cons x xs ih =>
    cases j with
    | zero => simp
    | succ k => simpa using ih k (by simpa using hj)

lemma basename_no_slash (p : String) (c : Char) (hc : c ∈ (basename p).data) : c ≠ '/' := by
  simp only [basename] at hc
  rw [List.mem_reverse] at hc
  have := List.mem_takeWhile_imp hc
  simpa using this

lemma strHead?_basename_ne_slash (p : String) : strHead? (basename p) ≠ some '/' := by
  unfold strHead?
  cases hd : (basename p).data with
  | nil => simp
  | cons c cs =>
    simp only [List.head?_cons, ne_eq, Option.some.injEq]
    intro hcc
    exact basename_no_slash p c (by rw [hd]; exact List.mem_cons_self c cs) hcc

lemma osPathJoin2_eq_append (a b : String) (ha : a ≠ "") (ha' : strLast? a ≠ some '/')
    (hb : strHead? b ≠ some '/') : osPathJoin2 a b = a ++ "/" ++ b := by
  simp [osPathJoin2, hb, ha, ha']

lemma strLast?_append_singleton (s : String) (c : Char) :
    strLast? (s ++ String.mk [c]) = some c := by
  unfold strLast?
  show ((s ++ String.mk [c]).data).getLast? = some c
  have hd : (s ++ String.mk [c]).data = s.data ++ [c] := rfl
  rw [hd, List.getLast?_append_of_ne_nil s.data (by simp)]
  rfl

lemma append_singleton_ne_empty (s : String) (c : Char) : s ++ String.mk [c] ≠ "" := by
  intro h
  have hd2 : (s ++ String.mk [c]).data = [] := by rw [h]
  simp at hd2

lemma coerceSection_error_eq (rs : RawSection) (e : PyError)
    (h : coerceSection rs = .error e) : e = .validationError := by
  cases rs with
  | absent => exact absurd h (by simp [coerceSection])
  | nonMapping => exact absurd h (by simp [coerceSection])
  | mapping w =>
    cases w with
    | true => exact absurd h (by simp [coerceSection])
    | false =>
      simp [coerceSection] at h
      exact h.symm

lemma coerceSection_of_wellShaped (rs : RawSection) (h : rs ≠ .mapping false) :
    coerceSection rs = .ok (if rs = .mapping true then .fromRaw else .defaulted) := by
  cases rs with
  | absent => rfl
  | nonMapping => rfl
  | mapping w =>
    cases w with
    | true => rfl
    | false => exact absurd rfl h

lemma configFold_no_configError (raw : SectionName → RawSection) (l : List SectionName)
    (acc : List (SectionName × SectionVal)) :
    l.foldlM (fun acc f =>
        match coerceSection (raw f) with
        | .error e => .error e
        | .ok v => .ok (acc ++ [(f, v)])) acc ≠ (.error .configError : Except PyError _) := by
  induction l generalizing acc with
  | nil => simp [List.foldlM, pure, Except.pure]
  | cons f fs ih =>
    rw [List.foldlM_cons]
    cases hc : coerceSection (raw f) with
    | error e =>
      have he : e = .validationError := coerceSection_error_eq _ _ hc
      subst he
      simp [Bind.bind, Except.bind]
    | ok v =>
      simpa [Bind.bind, Except.bind] using ih (acc ++ [(f, v)])

lemma configFold_wellShaped (raw : SectionName → RawSection) (l : List SectionName)
    (acc : List (SectionName × SectionVal)) (h : ∀ f, raw f ≠ .mapping false) :
    l.foldlM (fun acc f =>
        match coerceSection (raw f) with
        | .error e => .error e
        | .ok v => .ok (acc ++ [(f, v)])) acc =
      (.ok (acc ++ l.map (fun f =>
        (f, if raw f = .mapping true then SectionVal.fromRaw else .defaulted))) :
        Except PyError _) := by
  induction l generalizing acc with
  | nil => simp [List.foldlM, pure, Except.pure]
  | cons f fs ih =>
    rw [List.foldlM_cons, coerceSection_of_wellShaped (raw f) (h f)]
    simp only [Bind.bind, Except.bind]
    rw [ih (acc ++ [(f, _)])]
    simp

lemma plannedDeleteKeys_cons (f : FileModel) (rest : List FileModel) :
    plannedDeleteKeys (f :: rest) = f.path :: (thumbKeys f ++ plannedDeleteKeys rest) := by
  simp [plannedDeleteKeys, thumbKeys]

/-- Claim C1: for an identifier with no matching relational row, `get` does
fail, but with an untyped `AttributeError` from dereferencing `None.files` —
not with `RecordNotFound` as the specification states. -/
theorem get_absent_identifier_raises_attributeError (st : State) (identifier : String)
    (h : ∀ b ∈ st.beds, b.id ≠ identifier) :
    get st identifier = .error .attributeError ∧
    get st identifier ≠ .error .recordNotFound := by
  have hf : st.beds.find? (fun b => b.id = identifier) = none := by
    rw [List.find?_eq_none]
    intro b hb
    simp [h b hb]
  refine ⟨?_, ?_⟩ <;> simp [get, hf]

/-- Claim C1, witness: on the empty store state the absent identifier
`"abc123"` makes `get` raise `AttributeError`. -/
theorem get_absent_identifier_raises_attributeError_witness :
    (∀ b ∈ (⟨[], [], [], [], []⟩ : State).beds, b.id ≠ "abc123") ∧
    get ⟨[], [], [], [], []⟩ "abc123" = .error .attributeError :=
  ⟨by simp, (get_absent_identifier_raises_attributeError ⟨[], [], [], [], []⟩ "abc123" (by simp)).1⟩

/-- Claim C2, counterexample: running `add` for identifier `"abc123"` with
the single descriptor `{name: "bed_file", path: "/tmp/x.bed"}` and asset
sync enabled succeeds, and the stored descriptor path is
`"bed_files/x/./x.bed"` — sharded on the basename's first two characters —
not the claimed `"bed_files/a/b/x.bed"`. -/
theorem add_scenario_key_shards_on_basename :
    (add ⟨[], [], [], [], []⟩ "abc123" [] (some []) (some ⟨bedPlotsFields.map (fun n => (n, none))⟩)
        (some ⟨some ⟨"bed_file", "/tmp/x.bed", none, none, none⟩, none⟩) (some [])
        false false true none false (fun _ => []) (fun _ => []) true
        (fun p => if p = "/tmp/x.bed" then some 100 else none)).2 = none ∧
    ((add ⟨[], [], [], [], []⟩ "abc123" [] (some []) (some ⟨bedPlotsFields.map (fun n => (n, none))⟩)
        (some ⟨some ⟨"bed_file", "/tmp/x.bed", none, none, none⟩, none⟩) (some [])
        false false true none false (fun _ => []) (fun _ => []) true
        (fun p => if p = "/tmp/x.bed" then some 100 else none)).1.fileRows.map
          (fun r => r.path)) = ["bed_files/x/./x.bed"] ∧
    "bed_files/x/./x.bed" ≠ "bed_files/a/b/x.bed" := by
  refine ⟨rfl, rfl, ?_⟩
  decide

/-- Claim C2, amended: the generic batch upload of `BedBaseConfig` derives
`<category>/<id[0]>/<id[1]>/<basename>` from the identifier, but the
bed-specific batch upload used by `add` derives
`<category>/<basename[0]>/<basename[1]>/<basename>` from the file's
basename. -/
theorem s3_key_shard_conventions (x y : Char) (restId : List Char) (path : String)
    (hx : x ≠ '/') (hy : y ≠ '/') :
    (∃ s, configS3Key S3_FILE_PATH_FOLDER (String.mk (x :: y :: restId)) path = .ok s ∧
      s.data = "bed_files".data ++ '/' :: x :: '/' :: y :: '/' :: (basename path).data) ∧
    (∀ bx bz : Char, ∀ restB : List Char, (basename path).data = bx :: bz :: restB →
      ∃ s, agentS3Key BED_PATH_FOLDER path = .ok s ∧
        s.data = "bed_files".data ++ '/' :: bx :: '/' :: bz :: '/' :: (basename path).data) := by
  constructor
  · have h0 : pyIndexStr (String.mk (x :: y :: restId)) 0 = .ok (String.mk [x]) := by
      simp [pyIndexStr, strLen]
    have h1 : pyIndexStr (String.mk (x :: y :: restId)) 1 = .ok (String.mk [y]) := by
      simp [pyIndexStr, strLen]
    have j1 : osPathJoin2 S3_FILE_PATH_FOLDER (String.mk [x]) =
        S3_FILE_PATH_FOLDER ++ "/" ++ String.mk [x] := by
      apply osPathJoin2_eq_append
      · decide
      · decide
      · simp [strHead?, hx]
    have j2 : osPathJoin2 (S3_FILE_PATH_FOLDER ++ "/" ++ String.mk [x]) (String.mk [y]) =
        S3_FILE_PATH_FOLDER ++ "/" ++ String.mk [x] ++ "/" ++ String.mk [y] := by
      apply osPathJoin2_eq_append
      · exact append_singleton_ne_empty _ x
      · rw [strLast?_append_singleton]
        simp [hx]
      · simp [strHead?, hy]
    have j3 : osPathJoin2 (S3_FILE_PATH_FOLDER ++ "/" ++ String.mk [x] ++ "/" ++ String.mk [y])
        (basename path) =
        S3_FILE_PATH_FOLDER ++ "/" ++ String.mk [x] ++ "/" ++ String.mk [y] ++ "/" ++
          basename path := by
      apply osPathJoin2_eq_append
      · exact append_singleton_ne_empty _ y
      · rw [strLast?_append_singleton]
        simp [hy]
      · exact strHead?_basename_ne_slash path
    refine ⟨S3_FILE_PATH_FOLDER ++ "/" ++ String.mk [x] ++ "/" ++ String.mk [y] ++ "/" ++
      basename path, ?_, rfl⟩
    simp only [configS3Key, h0, h1, Bind.bind, Except.bind]
    rw [j1, j2, j3]
  · intro bx bz restB hb
    have hxs : bx ≠ '/' :=
      basename_no_slash path bx (by rw [hb]; exact List.mem_cons_self _ _)
    have hzs : bz ≠ '/' :=
      basename_no_slash path bz (by rw [hb]; exact List.mem_cons_of_mem _ (List.mem_cons_self _ _))
    have h0 : pyIndexStr (basename path) 0 = .ok (String.mk [bx]) := by
      simp [pyIndexStr, strLen, hb]
    have h1 : pyIndexStr (basename path) 1 = .ok (String.mk [bz]) := by
      simp [pyIndexStr, strLen, hb]
    have j1 : osPathJoin2 BED_PATH_FOLDER (String.mk [bx]) =
        BED_PATH_FOLDER ++ "/" ++ String.mk [bx] := by
      apply osPathJoin2_eq_append
      · decide
      · decide
      · simp [strHead?, hxs]
    have j2 : osPathJoin2 (BED_PATH_FOLDER ++ "/" ++ String.mk [bx]) (String.mk [bz]) =
        BED_PATH_FOLDER ++ "/" ++ String.mk [bx] ++ "/" ++ String.mk [bz] := by
      apply osPathJoin2_eq_append
      · exact append_singleton_ne_empty _ bx
      · rw [strLast?_append_singleton]
        simp [hxs]
      · simp [strHead?, hzs]
    have j3 : osPathJoin2 (BED_PATH_FOLDER ++ "/" ++ String.mk [bx] ++ "/" ++ String.mk [bz])
        (basename path) =
        BED_PATH_FOLDER ++ "/" ++ String.mk [bx] ++ "/" ++ String.mk [bz] ++ "/" ++
          basename path := by
      apply osPathJoin2_eq_append
      · exact append_singleton_ne_empty _ bz
      · rw [strLast?_append_singleton]
        simp [hzs]
      · exact strHead?_basename_ne_slash path
    refine ⟨BED_PATH_FOLDER ++ "/" ++ String.mk [bx] ++ "/" ++ String.mk [bz] ++ "/" ++
      basename path, ?_, rfl⟩
    simp only [agentS3Key, h0, h1, Bind.bind, Except.bind]
    rw [j1, j2, j3]

/-- Claim C2, witness: the two conventions instantiated at identifier
`"abc123"` and path `"/tmp/x.bed"`. -/
theorem s3_key_shard_conventions_witness :
    (('a' : Char) ≠ '/' ∧ ('b' : Char) ≠ '/') ∧
    ((∃ s, configS3Key S3_FILE_PATH_FOLDER (String.mk ('a' :: 'b' :: "c123".data))
        "/tmp/x.bed" = .ok s ∧
      s.data = "bed_files".data ++ '/' :: 'a' :: '/' :: 'b' :: '/' ::
        (basename "/tmp/x.bed").data) ∧
    (∀ bx bz : Char, ∀ restB : List Char,
      (basename "/tmp/x.bed").data = bx :: bz :: restB →
      ∃ s, agentS3Key BED_PATH_FOLDER "/tmp/x.bed" = .ok s ∧
        s.data = "bed_files".data ++ '/' :: bx :: '/' :: bz :: '/' ::
          (basename "/tmp/x.bed").data)) :=
  ⟨⟨by decide, by decide⟩,
   s3_key_shard_conventions 'a' 'b' "c123".data "/tmp/x.bed" (by decide) (by decide)⟩

/-- Claim C3: `delete` is a `...` (Ellipsis) stub: it removes nothing from
any store, and a present identifier still resolves through `get`
afterwards, contradicting both the method's docstring and the
specification. -/
theorem delete_is_noop_record_survives (st : State) (identifier : String) (b : BedRow)
    (hb : b ∈ st.beds) (hid : b.id = identifier) :
    delete st identifier = st ∧
    (get (delete st identifier) identifier).isOk = true := by
  refine ⟨rfl, ?_⟩
  have hs : (st.beds.find? (fun b' => b'.id = identifier)).isSome := by
    rw [List.find?_isSome]
    exact ⟨b, hb, by simp [hid]⟩
  cases hf : st.beds.find? (fun b' => b'.id = identifier) with
  | none => rw [hf] at hs; simp at hs
  | some bed => simp [delete, get, hf, Except.isOk, Except.toBool]

/-- Claim C3, witness: a store holding the single record `"abc123"` still
resolves it after `delete "abc123"`. -/
theorem delete_is_noop_record_survives_witness :
    (⟨"abc123", none, none, [], []⟩ : BedRow) ∈
        (⟨[⟨"abc123", none, none, [], []⟩], [], [], [], []⟩ : State).beds ∧
    (get (delete ⟨[⟨"abc123", none, none, [], []⟩], [], [], [], []⟩ "abc123")
      "abc123").isOk = true :=
  ⟨by simp,
   (delete_is_noop_record_survives ⟨[⟨"abc123", none, none, [], []⟩], [], [], [], []⟩
      "abc123" ⟨"abc123", none, none, [], []⟩ (by simp) rfl).2⟩

/-- Claim C4, counterexample: a failing region-to-vector embedding-model
constructor is not caught by `__init__` — with every other client healthy,
context construction itself fails. -/
theorem init_r2v_failure_is_fatal :
    bedBaseConfigInit ⟨.succ, .succ, .succ, .fail .other, .succ, .succ⟩ =
      .error .storeInitError := by decide

/-- Claim C4, amended: provided the database engine and the region-to-vector
model construct, and any vector-index failure is a response-handling
(connection) error, context construction succeeds and each of the
vector-index, text-search, external-metadata and object-store handles is
`some` on success and the unavailable marker `none` on failure. -/
theorem init_degraded_startup (o : InitOutcomes)
    (hdb : o.db = .succ) (hr2v : o.r2v = .succ)
    (hq : ∀ f, o.qdrant = .fail f → f = .responseHandling) :
    ∃ ctx, bedBaseConfigInit o = .ok ctx ∧
      (ctx.qdrantH = if o.qdrant = .succ then some () else none) ∧
      (ctx.t2bsiH = if o.t2bsi = .succ then some () else none) ∧
      (ctx.phcH = if o.phc = .succ then some () else none) ∧
      (ctx.boto3H = if o.boto3 = .succ then some () else none) := by
  obtain ⟨db, q, t, r, p, b⟩ := o
  simp only at hdb hr2v hq
  subst hdb hr2v
  cases q with
  | succ => cases t <;> cases p <;> cases b <;> exact ⟨_, rfl, by simp [bedBaseConfigInit]⟩
  | fail f =>
    have hrh := hq f rfl
    subst hrh
    cases t <;> cases p <;> cases b <;> exact ⟨_, rfl, by simp [bedBaseConfigInit]⟩

/-- Claim C4, witness: an unreachable vector-index endpoint (its constructor
fails with the response-handling error) still yields a constructed context
whose qdrant handle is the unavailable marker. -/
theorem init_degraded_startup_witness :
    ((⟨.succ, .fail .responseHandling, .succ, .succ, .succ, .succ⟩ : InitOutcomes).db = .succ ∧
      (⟨.succ, .fail .responseHandling, .succ, .succ, .succ, .succ⟩ : InitOutcomes).r2v = .succ ∧
      ∀ f, (⟨.succ, .fail .responseHandling, .succ, .succ, .succ, .succ⟩ : InitOutcomes).qdrant
        = .fail f → f = .responseHandling) ∧
    ∃ ctx, bedBaseConfigInit ⟨.succ, .fail .responseHandling, .succ, .succ, .succ, .succ⟩ =
        .ok ctx ∧
      (ctx.qdrantH = if (⟨.succ, .fail .responseHandling, .succ, .succ, .succ, .succ⟩ :
          InitOutcomes).qdrant = .succ then some () else none) ∧
      (ctx.t2bsiH = if (⟨.succ, .fail .responseHandling, .succ, .succ, .succ, .succ⟩ :
          InitOutcomes).t2bsi = .succ then some () else none) ∧
      (ctx.phcH = if (⟨.succ, .fail .responseHandling, .succ, .succ, .succ, .succ⟩ :
          InitOutcomes).phc = .succ then some () else none) ∧
      (ctx.boto3H = if (⟨.succ, .fail .responseHandling, .succ, .succ, .succ, .succ⟩ :
          InitOutcomes).boto3 = .succ then some () else none) :=
  ⟨⟨rfl, rfl, fun f h => (InitOutcome.fail.inj h).symm⟩,
   init_degraded_startup ⟨.succ, .fail .responseHandling, .succ, .succ, .succ, .succ⟩ rfl rfl
     (fun f h => (InitOutcome.fail.inj h).symm)⟩

/-- Claim C5, counterexample: `add` with asset sync enabled for identifier
`"abc123"` and descriptor `{name: "bed_file", path: "/tmp/x.bed"}` (local
byte size 100) followed by `get` returns a descriptor whose path is the
basename-sharded key `"bed_files/x/./x.bed"` (not the documented
identifier-sharded convention) and whose `size` is `none`, not the local
file's 100 bytes: the bed-specific upload never writes `size`. -/
theorem add_get_roundtrip_size_unset_scenario :
    (get (add ⟨[], [], [], [], []⟩ "abc123" [] (some [])
        (some ⟨bedPlotsFields.map (fun n => (n, none))⟩)
        (some ⟨some ⟨"bed_file", "/tmp/x.bed", none, none, none⟩, none⟩) (some [])
        false false true none false (fun _ => []) (fun _ => []) true
        (fun p => if p = "/tmp/x.bed" then some 100 else none)).1 "abc123").map
      (fun m => m.files.bed_file) =
      .ok (some ⟨"bed_file", "bed_files/x/./x.bed", none, none, none⟩) ∧
    (some ⟨"bed_file", "bed_files/x/./x.bed", none, none, none⟩ : Option FileModel) ≠
      some ⟨"bed_file", "bed_files/a/b/x.bed", none, none, some 100⟩ := by
  refine ⟨rfl, ?_⟩
  decide

/-- Claim C5, amended: for a fresh identifier, `add` with asset sync
enabled followed by `get` yields a `bed_file` descriptor whose path is the
agent's remote key (sharded on the basename's first two characters) while
its `size` stays `none`; the uploaded object itself is stored under that
key with the local file's byte count. -/
theorem add_get_roundtrip_descriptor (st : State) (identifier bpath : String)
    (desc : Option String) (sz : Nat) (stats : StatsD) (metaV : MetaD) (classV : ClassD)
    (lp : Option String) (ow : Bool) (parse : String → RegionSetD)
    (encode : RegionSetD → List (List ℚ)) (fs : String → Option Nat)
    (bx bz : Char) (restB : List Char)
    (hbase : (basename bpath).data = bx :: bz :: restB)
    (hfs : fs bpath = some sz)
    (hfresh : ∀ b ∈ st.beds, b.id ≠ identifier)
    (hrows : ∀ r ∈ st.fileRows, r.bedfile_id ≠ identifier) :
    ∃ st' key m,
      add st identifier stats (some metaV)
        (some ⟨bedPlotsFields.map (fun n => (n, none))⟩)
        (some ⟨some ⟨"bed_file", bpath, none, desc, none⟩, none⟩) (some classV)
        false false true lp ow parse encode true fs = (st', none) ∧
      agentS3Key BED_PATH_FOLDER bpath = .ok key ∧
      get st' identifier = .ok m ∧
      m.files.bed_file = some ⟨"bed_file", key, none, desc, none⟩ ∧
      st'.s3.lookup key = some sz := by
  have h0 : pyIndexStr (basename bpath) 0 = .ok (String.mk [bx]) := by
    simp [pyIndexStr, strLen, hbase]
  have h1 : pyIndexStr (basename bpath) 1 = .ok (String.mk [bz]) := by
    simp [pyIndexStr, strLen, hbase]
  set key := osPathJoin2 (osPathJoin2 (osPathJoin2 BED_PATH_FOLDER (String.mk [bx]))
    (String.mk [bz])) (basename bpath) with hkeydef
  have hkey : agentS3Key BED_PATH_FOLDER bpath = .ok key := by
    simp only [agentS3Key, h0, h1, Bind.bind, Except.bind]
  have hupload : uploadFilesS3Agent true fs st
      ⟨some ⟨"bed_file", bpath, none, desc, none⟩, none⟩ =
      .ok ({ st with s3 := (key, sz) :: st.s3 },
        ⟨some ⟨"bed_file", key, none, desc, none⟩, none⟩) := by
    simp [uploadFilesS3Agent, hkey, uploadS3Agent, hfs]
  have hplots : ∀ s : State, uploadPlotsS3Agent true fs s identifier lp
      ⟨bedPlotsFields.map (fun n => (n, none))⟩ =
      .ok (s, ⟨bedPlotsFields.map (fun n => (n, none))⟩) := fun s => rfl
  have hany : (st.beds.any (fun b => b.id = identifier)) = false := by
    rw [List.any_eq_false]
    intro b hb
    simp [hfresh b hb]
  have hadd : add st identifier stats (some metaV)
      (some ⟨bedPlotsFields.map (fun n => (n, none))⟩)
      (some ⟨some ⟨"bed_file", bpath, none, desc, none⟩, none⟩) (some classV)
      false false true lp ow parse encode true fs =
      ({ st with s3 := (key, sz) :: st.s3,
                 beds := st.beds ++ [⟨identifier, none, none, stats, classV⟩],
                 fileRows := st.fileRows ++
                   [⟨"bed_file", key, none, desc, none, "file", identifier⟩] }, none) := by
    simp [add, hupload, hplots, hany, BedFiles.items]
  have hfind : (st.beds ++ [(⟨identifier, none, none, stats, classV⟩ : BedRow)]).find?
      (fun b => b.id = identifier) = some ⟨identifier, none, none, stats, classV⟩ := by
    rw [List.find?_append]
    have hnone : st.beds.find? (fun b => b.id = identifier) = none := by
      rw [List.find?_eq_none]
      intro b hb
      simp [hfresh b hb]
    simp [hnone]
  have hfilter : (st.fileRows ++
      [(⟨"bed_file", key, none, desc, none, "file", identifier⟩ : FilesRow)]).filter
      (fun r => r.bedfile_id = identifier) =
      [⟨"bed_file", key, none, desc, none, "file", identifier⟩] := by
    rw [List.filter_append]
    have hnil : st.fileRows.filter (fun r => r.bedfile_id = identifier) = [] := by
      rw [List.filter_eq_nil_iff]
      intro r hr
      simp [hrows r hr]
    simp [hnil]
  refine ⟨_, key, ⟨identifier, none, none, stats, classV,
      ⟨bedPlotsFields.map (fun n => (n, none))⟩,
      ⟨some ⟨"bed_file", key, none, desc, none⟩, none⟩,
      (st.pephub.lookup identifier).getD []⟩, hadd, hkey, ?_, rfl, ?_⟩
  · simp only [get, hfind, hfilter]
    rfl
  · simp [List.lookup]

/-- Claim C5, witness: the amended round trip instantiated at identifier
`"abc123"`, path `"/tmp/x.bed"` and byte size 100 on the empty store
state. -/
theorem add_get_roundtrip_descriptor_witness :
    ((basename "/tmp/x.bed").data = 'x' :: '.' :: ['b', 'e', 'd'] ∧
      (fun p => if p = "/tmp/x.bed" then some 100 else none) "/tmp/x.bed" = some 100 ∧
      (∀ b ∈ (⟨[], [], [], [], []⟩ : State).beds, b.id ≠ "abc123") ∧
      (∀ r ∈ (⟨[], [], [], [], []⟩ : State).fileRows, r.bedfile_id ≠ "abc123")) ∧
    ∃ st' key m,
      add ⟨[], [], [], [], []⟩ "abc123" [] (some [])
        (some ⟨bedPlotsFields.map (fun n => (n, none))⟩)
        (some ⟨some ⟨"bed_file", "/tmp/x.bed", none, none, none⟩, none⟩) (some [])
        false false true none false (fun _ => []) (fun _ => []) true
        (fun p => if p = "/tmp/x.bed" then some 100 else none) = (st', none) ∧
      agentS3Key BED_PATH_FOLDER "/tmp/x.bed" = .ok key ∧
      get st' "abc123" = .ok m ∧
      m.files.bed_file = some ⟨"bed_file", key, none, none, none⟩ ∧
      st'.s3.lookup key = some 100 :=
  ⟨⟨by decide, by decide, by simp, by simp⟩,
   add_get_roundtrip_descriptor ⟨[], [], [], [], []⟩ "abc123" "/tmp/x.bed" none 100 [] [] []
     none false (fun _ => []) (fun _ => [])
     (fun p => if p = "/tmp/x.bed" then some 100 else none) 'x' '.' ['b', 'e', 'd']
     (by decide) (by decide) (by simp) (by simp)⟩

/-- Claim C6, counterexample: a configuration source whose `database`
section is present but is not a mapping — a required field of the wrong
shape — does not fail with `ConfigError`: the `TypeError` from
`**`-expanding it is caught and the default-constructed section is
silently substituted.  A malformed mapping section fails with the pydantic
validation error and an unparseable source with the parser's own error —
`ConfigError` in neither case. -/
theorem readConfig_wrong_shape_not_configError :
    readConfigFile (.ok (fun f => match f with | .database => .nonMapping | _ => .mapping true)) =
      .ok [(.database, .defaulted), (.qdrant, .fromRaw), (.server, .fromRaw),
           (.path, .fromRaw), (.s3, .fromRaw), (.phc, .fromRaw)] ∧
    readConfigFile (.ok (fun f => match f with | .database => .nonMapping | _ => .mapping true)) ≠
      .error .configError ∧
    readConfigFile (.ok (fun f => match f with | .database => .mapping false | _ => .mapping true)) =
      .error .validationError ∧
    readConfigFile (.ok (fun f => match f with | .database => .mapping false | _ => .mapping true)) ≠
      .error .configError ∧
    readConfigFile (.error ()) = .error .yamlError ∧
    readConfigFile (.error ()) ≠ .error .configError := by
  refine ⟨rfl, ?_, rfl, ?_, rfl, ?_⟩ <;> decide

/-- Claim C6, amended: `_read_config_file` never raises `ConfigError`; a
section whose `**`-expansion raises `TypeError` (absent or not a mapping)
is silently replaced by the default-constructed section, while a malformed
mapping propagates the validation error uncaught. -/
theorem readConfig_typeError_defaults_no_configError
    (source : Except Unit (SectionName → RawSection)) :
    readConfigFile source ≠ .error .configError ∧
    (∀ raw, source = .ok raw → (∀ f, raw f ≠ .mapping false) →
      readConfigFile source =
        .ok (configFields.map (fun f =>
          (f, if raw f = .mapping true then SectionVal.fromRaw else .defaulted)))) := by
  constructor
  · cases source with
    | error e => simp [readConfigFile]
    | ok raw =>
      simp only [readConfigFile]
      exact configFold_no_configError raw configFields []
  · intro raw hs h
    subst hs
    simp only [readConfigFile]
    simpa using configFold_wellShaped raw configFields [] h

/-- Claim C6, witness: with every section a well-shaped mapping the reader
returns every section built from the raw mapping, and no `ConfigError`. -/
theorem readConfig_typeError_defaults_no_configError_witness :
    (∀ f, (fun _ : SectionName => RawSection.mapping true) f ≠ .mapping false) ∧
    readConfigFile (.ok (fun _ => .mapping true)) =
      .ok (configFields.map (fun f =>
        (f, if (fun _ : SectionName => RawSection.mapping true) f = .mapping true
            then SectionVal.fromRaw else .defaulted))) :=
  ⟨fun f => by simp,
   (readConfig_typeError_defaults_no_configError (.ok (fun _ => .mapping true))).2
     (fun _ => .mapping true) rfl (fun f => by simp)⟩

/-- Claim C7: the search result loop cannot normalize, resolve or omit
anything — the resolver it names (`bbc.bed.retrieve_one`) and the
exception class its except clause names (`RecordNotFoundError`) are both
undefined in the module, so for every non-empty result list the loop
raises `NameError` on the first hit and no result sequence is ever
returned. -/
theorem search_loop_raises_nameError (results : List SearchHit) (h : results ≠ []) :
    textToBedSearch results = .error .nameError ∧
    ∀ out, textToBedSearch results ≠ .ok out := by
  cases results with
  | nil => exact absurd rfl h
  | cons a l =>
    refine ⟨rfl, fun out hk => ?_⟩
    simp [textToBedSearch] at hk

/-- Claim C7, witness: a single-neighbor result list makes the loop raise
`NameError`. -/
theorem search_loop_raises_nameError_witness :
    ([(⟨"ab-c12", none⟩ : SearchHit)] ≠ []) ∧
    (textToBedSearch [⟨"ab-c12", none⟩] = .error .nameError ∧
      ∀ out, textToBedSearch [⟨"ab-c12", none⟩] ≠ .ok out) :=
  ⟨by decide, search_loop_raises_nameError [⟨"ab-c12", none⟩] (by decide)⟩

/-- Claim C8, counterexample: a deletion failure on the first descriptor
stops the batch — the second descriptor's key is never passed to
`delete_s3`. -/
theorem deleteFiles_failure_stops_batch :
    (deleteFilesS3
      (fun k => if k = "k1" then .error .s3ConnectionError else .ok ())
      [⟨"a", "k1", none, none, none⟩, ⟨"b", "k2", none, none, none⟩]).1 = ["k1"] ∧
    "k2" ∉ (deleteFilesS3
      (fun k => if k = "k1" then .error .s3ConnectionError else .ok ())
      [⟨"a", "k1", none, none, none⟩, ⟨"b", "k2", none, none, none⟩]).1 := by
  refine ⟨rfl, ?_⟩
  decide

/-- Claim C8, amended: `delete_files_s3` attempts the descriptors' keys in
order — each descriptor's path, then its present (non-empty) thumbnail —
always a front segment of the planned key sequence; when no deletion
fails, every planned key (thumbnails included) is attempted, but a failure
aborts the attempts on everything after it. -/
theorem deleteFiles_attempt_order (del1 : String → Except PyError Unit)
    (files : List FileModel) :
    (∃ rest, plannedDeleteKeys files = (deleteFilesS3 del1 files).1 ++ rest) ∧
    ((deleteFilesS3 del1 files).2 = none →
      (deleteFilesS3 del1 files).1 = plannedDeleteKeys files) := by
  induction files with
  | nil => exact ⟨⟨[], rfl⟩, fun _ => rfl⟩
  | cons f rest ih =>
    obtain ⟨⟨tail, htail⟩, hok⟩ := ih
    rw [plannedDeleteKeys_cons]
    cases hd : del1 f.path with
    | error e =>
      constructor
      · exact ⟨thumbKeys f ++ plannedDeleteKeys rest, by simp [deleteFilesS3, hd]⟩
      · intro hnone
        simp [deleteFilesS3, hd] at hnone
    | ok u =>
      cases u
      cases hth : f.path_thumbnail with
      | none =>
        have hthk : thumbKeys f = [] := by simp [thumbKeys, hth]
        constructor
        · exact ⟨tail, by simp [deleteFilesS3, hd, hth, hthk, htail]⟩
        · intro hnone
          simp only [deleteFilesS3, hd, hth] at hnone ⊢
          simp only [hthk, List.nil_append]
          simp [hok hnone]
      | some t =>
        by_cases ht : t = ""
        · subst ht
          have hthk : thumbKeys f = [] := by simp [thumbKeys, hth]
          constructor
          · refine ⟨tail, ?_⟩
            simp only [deleteFilesS3, hd, hth, hthk]
            simp [htail]
          · intro hnone
            simp only [deleteFilesS3, hd, hth] at hnone ⊢
            simp only [hthk, List.nil_append]
            simp at hnone ⊢
            simp [hok hnone]
        · have hthk : thumbKeys f = [t] := by simp [thumbKeys, hth, ht]
          cases hdt : del1 t with
          | error e =>
            constructor
            · refine ⟨plannedDeleteKeys rest, ?_⟩
              simp only [deleteFilesS3, hd, hth, hthk]
              simp [ht, hdt]
            · intro hnone
              simp only [deleteFilesS3, hd, hth] at hnone
              simp [ht, hdt] at hnone
          | ok u2 =>
            cases u2
            constructor
            · refine ⟨tail, ?_⟩
              simp only [deleteFilesS3, hd, hth, hthk]
              simp [ht, hdt, htail]
            · intro hnone
              simp only [deleteFilesS3, hd, hth] at hnone ⊢
              simp only [hthk]
              simp [ht, hdt] at hnone ⊢
              simp [hok hnone]

/-- Claim C8, witness: with every deletion succeeding, a descriptor with a
thumbnail has both its path and its thumbnail attempted. -/
theorem deleteFiles_attempt_order_witness :
    ((deleteFilesS3 (fun _ => .ok ()) [⟨"a", "k1", some "t1", none, none⟩]).2 = none) ∧
    (deleteFilesS3 (fun _ => .ok ()) [⟨"a", "k1", some "t1", none, none⟩]).1 =
      plannedDeleteKeys [⟨"a", "k1", some "t1", none, none⟩] :=
  ⟨rfl, (deleteFiles_attempt_order (fun _ => .ok ())
    [⟨"a", "k1", some "t1", none, none⟩]).2 rfl⟩

/-- Claim C9: for a region set whose embedding model returns a per-region
matrix of `N` equal-length rows, the vector upserted into the vector index
by `upload_qdrant` is the column-wise arithmetic mean of the `N` per-region
vectors. -/
theorem uploadQdrant_vector_is_column_mean (parse : String → RegionSetD)
    (encode : RegionSetD → List (List ℚ)) (st : State) (bed_id : String)
    (rs : RegionSetD) (d : Nat)
    (h0 : encode rs ≠ []) (hd : ∀ r ∈ encode rs, r.length = d) :
    ∃ st' v, uploadQdrant parse encode st bed_id (.regionSet rs) = .ok st' ∧
      st'.qdrant.head? = some (bed_id, v) ∧ v.length = d ∧
      ∀ j < d, v.getD j 0 =
        ((encode rs).map (fun r => r.getD j 0)).sum / ((encode rs).length : ℚ) := by
  refine ⟨_, npMeanAxis0 (encode rs), rfl, rfl, ?_, ?_⟩
  · simp [npMeanAxis0, npColSum_length (encode rs) d h0 hd]
  · intro j hj
    have hlen : j < (npColSum (encode rs)).length := by
      rw [npColSum_length (encode rs) d h0 hd]
      exact hj
    unfold npMeanAxis0
    rw [getD_map_div _ _ _ hlen, npColSum_getD (encode rs) d j h0 hd hj]

/-- Claim C9, witness: two regions embedded as `[1, 3]` and `[3, 5]` upsert
the column-wise mean `[2, 4]`. -/
theorem uploadQdrant_vector_is_column_mean_witness :
    ((fun _ => [[(1 : ℚ), 3], [3, 5]]) ([] : RegionSetD) ≠ [] ∧
      ∀ r ∈ (fun _ => [[(1 : ℚ), 3], [3, 5]]) ([] : RegionSetD), r.length = 2) ∧
    ∃ st' v, uploadQdrant (fun _ => []) (fun _ => [[(1 : ℚ), 3], [3, 5]])
        ⟨[], [], [], [], []⟩ "abc123" (.regionSet []) = .ok st' ∧
      st'.qdrant.head? = some ("abc123", v) ∧ v.length = 2 ∧
      ∀ j < 2, v.getD j 0 =
        (((fun _ => [[(1 : ℚ), 3], [3, 5]]) ([] : RegionSetD)).map
          (fun r => r.getD j 0)).sum /
          (((fun _ => [[(1 : ℚ), 3], [3, 5]]) ([] : RegionSetD)).length : ℚ) :=
  ⟨⟨by decide, by decide⟩,
   uploadQdrant_vector_is_column_mean (fun _ => []) (fun _ => [[(1 : ℚ), 3], [3, 5]])
     ⟨[], [], [], [], []⟩ "abc123" [] 2 (by decide) (by decide)⟩

/-- Claim C10: leaving any of `metadata`, `plots`, `files` or
`classification` at its `None` default makes `add` raise `TypeError` from
the `**` dict expansion before any store is touched — the returned state is
the initial state unchanged. -/
theorem add_none_argument_raises_typeError (st : State) (identifier : String)
    (stats : StatsD) (metadata : Option MetaD) (plots : Option BedPlots)
    (files : Option BedFiles) (classification : Option ClassD)
    (q p s : Bool) (lp : Option String) (ow : Bool)
    (parse : String → RegionSetD) (encode : RegionSetD → List (List ℚ))
    (boto3 : Bool) (fs : String → Option Nat)
    (h : metadata = none ∨ plots = none ∨ files = none ∨ classification = none) :
    add st identifier stats metadata plots files classification q p s lp ow
      parse encode boto3 fs = (st, some .typeError) := by
  cases plots <;> cases files <;> cases metadata <;> cases classification <;>
    simp_all [add]

/-- Claim C10, witness: `metadata = none` with all other arguments supplied
raises `TypeError` and leaves the empty state untouched. -/
theorem add_none_argument_raises_typeError_witness :
    ((none : Option MetaD) = none ∨ (some {} : Option BedPlots) = none ∨
      (some {} : Option BedFiles) = none ∨ (some [] : Option ClassD) = none) ∧
    add ⟨[], [], [], [], []⟩ "abc123" [] none (some {}) (some {}) (some [])
      false false false none false (fun _ => []) (fun _ => []) false (fun _ => none)
      = (⟨[], [], [], [], []⟩, some .typeError) :=
  ⟨Or.inl rfl,
   add_none_argument_raises_typeError ⟨[], [], [], [], []⟩ "abc123" [] none (some {})
     (some {}) (some []) false false false none false (fun _ => []) (fun _ => []) false
     (fun _ => none) (Or.inl rfl)⟩

end BBConf
